import Mathlib

/-
Verification of the todos application (cohorts/2025/01-overview/todos).
The request handlers are embedded from views.py; the Todo model defaults,
the listing order and the form validation rules live in models.py and
forms.py, which are not part of the sources here, so those parts are
modelled from the specification and marked as such in their doc comments.
-/

namespace Todos

/-- Modelled from the spec: a calendar date, used for the optional due_date
field (models.py is not among the sources). -/
structure Date where
  year : Nat
  month : Nat
  day : Nat
deriving DecidableEq, Repr

/-- Modelled from the spec: Gregorian leap year rule, used to decide whether
a parsed due_date is a valid calendar date. -/
def isLeapYear (y : Nat) : Bool :=
  (y % 4 == 0 && y % 100 != 0) || y % 400 == 0

/-- Modelled from the spec: number of days in a month of a given year. -/
def daysInMonth (y m : Nat) : Nat :=
  if m == 2 then (if isLeapYear y then 29 else 28)
  else if m == 4 || m == 6 || m == 9 || m == 11 then 30
  else 31

/-- Modelled from the spec: validity of a calendar date. -/
def Date.valid (d : Date) : Bool :=
  1 ≤ d.month && d.month ≤ 12 && 1 ≤ d.day && d.day ≤ daysInMonth d.year d.month

/-- Modelled from the spec: whitespace trimming of a submitted text field,
written over the character list of the string. -/
def strip (s : String) : String :=
  ⟨((s.data.dropWhile Char.isWhitespace).reverse.dropWhile
      Char.isWhitespace).reverse⟩

/-- Modelled from the spec: read a run of characters as a decimal number;
none when the run is empty or holds a non-digit. -/
def parseNat (l : List Char) : Option Nat :=
  if l.isEmpty then none
  else if l.all Char.isDigit then
    some (l.foldl (fun acc c => 10 * acc + (c.toNat - 48)) 0)
  else none

/-- Modelled from the spec: split a character list at each dash. -/
def splitDash : List Char → List (List Char)
  | [] => [[]]
  | c :: cs =>
    if c = '-' then [] :: splitDash cs
    else
      match splitDash cs with
      | [] => [[c]]
      | h :: t => (c :: h) :: t

/-- Modelled from the spec: parse a non-empty due_date string in the accepted
ISO format YEAR-MONTH-DAY; any string that does not parse as a valid calendar
date yields none (forms.py is not among the sources). -/
def parseDate (s : String) : Option Date :=
  match splitDash s.data with
  | [ys, ms, ds] =>
    match parseNat ys, parseNat ms, parseNat ds with
    | some y, some m, some d =>
      let date : Date := { year := y, month := m, day := d }
      if date.valid then some date else none
    | _, _, _ => none
  | _ => none

/-- The Todo record, the sole entity of the data model (section 3 of the
spec; models.py is not among the sources, fields as the spec lists them).
Timestamps are modelled as natural numbers drawn from a store clock. -/
structure Todo where
  id : Nat
  title : String
  description : String
  due_date : Option Date
  resolved : Bool
  created_at : Nat
  updated_at : Nat
deriving DecidableEq, Repr

/-- The form fields of TodoForm plus updated_at, the names that can appear
in the update_fields list of TodoUpdateView.form_valid (views.py). -/
inductive Field where
  | title
  | description
  | due_date
  | resolved
  | updated_at
deriving DecidableEq, Repr

/-- Validation errors surfaced by the form (spec section 4.2). -/
inductive FieldError where
  | titleRequired
  | invalidDate
deriving DecidableEq, Repr

/-- Handler outcomes: redirect to the list, re-render the form with errors,
or a 404-equivalent NotFound (spec sections 4.3 and 6). -/
inductive Response where
  | redirect
  | rerender (errors : List FieldError)
  | notFound
deriving DecidableEq, Repr

/-- Cleaned form data after validation: the four fields of TodoForm. -/
structure TodoFormData where
  title : String
  description : String
  due_date : Option Date
  resolved : Bool
deriving DecidableEq, Repr

/-- Raw form submission as posted over HTTP: every field a string except the
checkbox, which is false when absent from the post. -/
structure RawForm where
  title : String
  description : String
  due_date : String
  resolved : Bool
deriving DecidableEq, Repr

/-- The Todo store: the record table, the id sequence, and a clock supplying
timestamps (created_at and updated_at values). -/
structure Store where
  todos : List Todo
  nextId : Nat
  clock : Nat
deriving DecidableEq, Repr

/-- Modelled from the spec: the validation layer of TodoForm (forms.py is
not among the sources). Title must be non-empty after trimming; due_date, if
non-empty, must parse as a calendar date; an empty due_date means not
provided and is not an error. -/
def validate (r : RawForm) : Except (List FieldError) TodoFormData :=
  let titleErrors : List FieldError :=
    if strip r.title = "" then [FieldError.titleRequired] else []
  let dateResult : Except (List FieldError) (Option Date) :=
    if r.due_date = "" then Except.ok none
    else match parseDate r.due_date with
      | some d => Except.ok (some d)
      | none => Except.error [FieldError.invalidDate]
  match dateResult with
  | Except.ok d =>
    if titleErrors = [] then
      Except.ok { title := strip r.title, description := r.description,
                  due_date := d, resolved := r.resolved }
    else Except.error titleErrors
  | Except.error es => Except.error (titleErrors ++ es)

/-- The changed-field set of the bound form: the form fields whose submitted
value differs from the stored value (form.changed_data in form_valid). -/
def changedData (t : Todo) (f : TodoFormData) : List Field :=
  (if f.title = t.title then [] else [Field.title]) ++
  (if f.description = t.description then [] else [Field.description]) ++
  (if f.due_date = t.due_date then [] else [Field.due_date]) ++
  (if f.resolved = t.resolved then [] else [Field.resolved])

/-- form_valid appends updated_at to the changed list when absent
(views.py, TodoUpdateView.form_valid). -/
def withUpdatedAt (changed : List Field) : List Field :=
  if Field.updated_at ∈ changed then changed else changed ++ [Field.updated_at]

/-- obj.save with update_fields: writes only the listed columns of the row;
the listed form fields take the value from the form instance, updated_at
when listed takes the current clock (auto timestamp per the views.py
comment), every column absent from the list keeps its stored value. -/
def saveUpdateFields (now : Nat) (current : Todo) (f : TodoFormData)
    (fields : List Field) : Todo :=
  { id := current.id
    title := if Field.title ∈ fields then f.title else current.title
    description :=
      if Field.description ∈ fields then f.description else current.description
    due_date := if Field.due_date ∈ fields then f.due_date else current.due_date
    resolved := if Field.resolved ∈ fields then f.resolved else current.resolved
    created_at := current.created_at
    updated_at :=
      if Field.updated_at ∈ fields then now else current.updated_at }

/-- Get-by-id against the store (get_object of the generic views). -/
def getTodo (s : Store) (pk : Nat) : Option Todo :=
  s.todos.find? (fun t => t.id == pk)

/-- TodoCreateView (views.py): run the form validation; on failure re-render
with errors and write nothing; on success insert a new record with a fresh
id, created_at and updated_at set from the clock, and redirect. -/
def createTodo (s : Store) (r : RawForm) : Store × Response :=
  match validate r with
  | Except.error es => (s, Response.rerender es)
  | Except.ok f =>
    let t : Todo :=
      { id := s.nextId, title := f.title, description := f.description,
        due_date := f.due_date, resolved := f.resolved,
        created_at := s.clock, updated_at := s.clock }
    ({ todos := t :: s.todos, nextId := s.nextId + 1, clock := s.clock + 1 },
     Response.redirect)

/-- TodoUpdateView.form_valid (views.py): load the object (404 when the id
is absent), compute form.changed_data; when empty perform no save at all;
otherwise append updated_at and save only those fields; redirect to list. -/
def form_valid (s : Store) (pk : Nat) (f : TodoFormData) : Store × Response :=
  match getTodo s pk with
  | none => (s, Response.notFound)
  | some t =>
    let changed := changedData t f
    if changed = [] then (s, Response.redirect)
    else
      let t' := saveUpdateFields s.clock t f (withUpdatedAt changed)
      ({ todos := s.todos.map (fun u => if u.id = pk then t' else u),
         nextId := s.nextId, clock := s.clock + 1 },
       Response.redirect)

/-- The Case/When expression of toggle_resolved: when resolved is true the
new value is false, in every other case it is true (views.py). -/
def resolvedCase (resolved : Bool) : Bool :=
  if resolved = true then false else true

/-- toggle_resolved (views.py): a single filtered UPDATE setting resolved
through the Case expression on every row whose pk matches, followed by an
unconditional redirect to the list. The UPDATE touches no other column and
bypasses save, so no timestamp is written. -/
def toggle_resolved (s : Store) (pk : Nat) : Store × Response :=
  ({ todos :=
       s.todos.map (fun t =>
         if t.id = pk then { t with resolved := resolvedCase t.resolved } else t),
     nextId := s.nextId, clock := s.clock },
   Response.redirect)

/-- Ordering relation of the default listing: by created_at descending. -/
def createdDesc (a b : Todo) : Prop := b.created_at ≤ a.created_at

instance : DecidableRel createdDesc := fun a b => Nat.decLe b.created_at a.created_at

/-- Modelled from the spec: the default listing returns the records ordered
by created_at descending, newest first (the ordering lives in the model Meta
of models.py, which is not among the sources). -/
def listTodos (s : Store) : List Todo :=
  s.todos.insertionSort createdDesc

/-- Store well-formedness: every stored timestamp precedes the clock. -/
def Store.WF (s : Store) : Prop :=
  ∀ t ∈ s.todos, t.created_at < s.clock

/-- One interleaved edit request against a record: the handler loaded
snapshot, computed form.changed_data from it, and its save with
update_fields executes against the row as currently stored, which a
concurrent request may have modified since the load; with an empty changed
set no save runs (TodoUpdateView.form_valid). -/
def concurrentEditStep (snapshot : Todo) (f : TodoFormData) (now : Nat)
    (current : Todo) : Todo :=
  let changed := changedData snapshot f
  if changed = [] then current
  else saveUpdateFields now current f (withUpdatedAt changed)

/-- Two edit requests that both loaded the same row r0 and whose writes then
land in sequence: the interleaving of two concurrent edits. -/
def twoEdits (r0 : Todo) (f1 f2 : TodoFormData) (n1 n2 : Nat) : Todo :=
  concurrentEditStep r0 f2 n2 (concurrentEditStep r0 f1 n1 r0)

/-- Fixture: a stored record used to evaluate the theorems concretely. -/
def sampleTodo1 : Todo :=
  { id := 1, title := "a", description := "d", due_date := none,
    resolved := false, created_at := 0, updated_at := 0 }

/-- Fixture: a second stored record with a distinct id. -/
def sampleTodo2 : Todo :=
  { id := 2, title := "b", description := "e", due_date := none,
    resolved := true, created_at := 1, updated_at := 1 }

/-- Fixture: a store holding the two sample records. -/
def sampleStore : Store :=
  { todos := [sampleTodo1, sampleTodo2], nextId := 3, clock := 7 }

theorem resolvedCase_eq_not (b : Bool) : resolvedCase b = !b := by
  cases b <;> rfl

theorem resolvedCase_resolvedCase (b : Bool) :
    resolvedCase (resolvedCase b) = b := by
  cases b <;> rfl

theorem map_eq_self_of (l : List Todo) (f : Todo → Todo)
    (h : ∀ a ∈ l, f a = a) : l.map f = l := by
  induction l with
  | nil => rfl
  | cons a l ih =>
    simp only [List.map_cons, h a (by simp)]
    rw [ih (fun b hb => h b (by simp [hb]))]

/-- C1: toggle is an involution on the stored resolved flag: one toggle
flips resolved of the matching record (false becomes true), and a second
toggle restores the original store contents. -/
theorem toggle_twice_restores (s : Store) (pk : Nat) :
    (toggle_resolved s pk).1.todos
      = s.todos.map (fun t =>
          if t.id = pk then { t with resolved := !t.resolved } else t)
    ∧ (toggle_resolved (toggle_resolved s pk).1 pk).1.todos = s.todos := by
  constructor
  · simp [toggle_resolved, resolvedCase_eq_not]
  · show List.map _ (List.map _ s.todos) = s.todos
    induction s.todos with
    | nil => rfl
    | cons a l ih =>
      simp only [List.map_cons]
      rw [ih]
      by_cases h : a.id = pk
      · obtain ⟨ai, at1, ad, add, ar, ac, au⟩ := a
        simp_all [resolvedCase_resolvedCase]
      · simp [h]

/-- C2 counterexample: id 99 is absent from the sample store, yet the
toggle handler answers with a redirect, not with NotFound. -/
theorem toggle_missing_id_not_notFound :
    (∀ t ∈ sampleStore.todos, t.id ≠ 99)
    ∧ (toggle_resolved sampleStore 99).2 = Response.redirect
    ∧ (toggle_resolved sampleStore 99).2 ≠ Response.notFound := by
  decide

/-- C2 (amended): for every id not present in the store, the toggle handler
performs no write (the store is unchanged) and signals a redirect to the
list, never NotFound. -/
theorem toggle_missing_id_redirects (s : Store) (pk : Nat)
    (h : ∀ t ∈ s.todos, t.id ≠ pk) :
    toggle_resolved s pk = (s, Response.redirect) := by
  have hmap : s.todos.map (fun t =>
      if t.id = pk then { t with resolved := resolvedCase t.resolved } else t)
      = s.todos :=
    map_eq_self_of _ _ (fun a ha => by simp [h a ha])
  simp [toggle_resolved, hmap]

theorem toggle_missing_id_redirects_witness :
    (∀ t ∈ sampleStore.todos, t.id ≠ 99)
    ∧ toggle_resolved sampleStore 99 = (sampleStore, Response.redirect) :=
  ⟨by decide, toggle_missing_id_redirects sampleStore 99 (by decide)⟩

/-- C8: toggling only rewrites the resolved column of the matching record:
the id, title, description, due_date, created_at and updated_at of every
record are unchanged, and a record whose id differs from pk is untouched
entirely. -/
theorem toggle_frame (s : Store) (pk i : Nat) :
    ((toggle_resolved s pk).1.todos[i]?).map Todo.id = (s.todos[i]?).map Todo.id
    ∧ ((toggle_resolved s pk).1.todos[i]?).map Todo.title
        = (s.todos[i]?).map Todo.title
    ∧ ((toggle_resolved s pk).1.todos[i]?).map Todo.description
        = (s.todos[i]?).map Todo.description
    ∧ ((toggle_resolved s pk).1.todos[i]?).map Todo.due_date
        = (s.todos[i]?).map Todo.due_date
    ∧ ((toggle_resolved s pk).1.todos[i]?).map Todo.created_at
        = (s.todos[i]?).map Todo.created_at
    ∧ ((toggle_resolved s pk).1.todos[i]?).map Todo.updated_at
        = (s.todos[i]?).map Todo.updated_at
    ∧ ∀ t, s.todos[i]? = some t → t.id ≠ pk →
        (toggle_resolved s pk).1.todos[i]? = some t := by
  have hmap : (toggle_resolved s pk).1.todos[i]?
      = (s.todos[i]?).map (fun t =>
          if t.id = pk then { t with resolved := resolvedCase t.resolved } else t) := by
    simp [toggle_resolved]
  cases h : s.todos[i]? with
  | none => rw [hmap, h]; simp
  | some t =>
    rw [hmap, h]
    by_cases ht : t.id = pk
    · refine ⟨by simp [ht], by simp [ht], by simp [ht], by simp [ht],
        by simp [ht], by simp [ht], ?_⟩
      intro t' e hne
      injection e with e
      subst e
      exact absurd ht hne
    · refine ⟨by simp [ht], by simp [ht], by simp [ht], by simp [ht],
        by simp [ht], by simp [ht], ?_⟩
      intro t' e hne
      injection e with e
      subst e
      simp [ht]

theorem toggle_frame_witness :
    (sampleStore.todos[1]? = some sampleTodo2)
    ∧ sampleTodo2.id ≠ 1
    ∧ (toggle_resolved sampleStore 1).1.todos[1]? = some sampleTodo2 :=
  ⟨by decide, by decide,
    (toggle_frame sampleStore 1 1).2.2.2.2.2.2 sampleTodo2 (by decide) (by decide)⟩

/-- C9 counterexample: toggling record 1 of the sample store is a mutating
write (resolved flips from false to true) yet updated_at keeps its stale
value 0 while the clock reads 7, so the toggle write does not refresh the
timestamp. -/
theorem toggle_does_not_refresh_updated_at :
    ((toggle_resolved sampleStore 1).1.todos[0]?).map Todo.resolved = some true
    ∧ (sampleStore.todos[0]?).map Todo.resolved = some false
    ∧ ((toggle_resolved sampleStore 1).1.todos[0]?).map Todo.updated_at = some 0
    ∧ sampleStore.clock = 7 ∧ (0 : Nat) ≠ 7 := by
  decide

theorem mem_changedData_title (t : Todo) (f : TodoFormData) :
    Field.title ∈ changedData t f ↔ f.title ≠ t.title := by
  unfold changedData
  split_ifs <;> simp_all

theorem mem_changedData_description (t : Todo) (f : TodoFormData) :
    Field.description ∈ changedData t f ↔ f.description ≠ t.description := by
  unfold changedData
  split_ifs <;> simp_all

theorem mem_changedData_due_date (t : Todo) (f : TodoFormData) :
    Field.due_date ∈ changedData t f ↔ f.due_date ≠ t.due_date := by
  unfold changedData
  split_ifs <;> simp_all

theorem mem_changedData_resolved (t : Todo) (f : TodoFormData) :
    Field.resolved ∈ changedData t f ↔ f.resolved ≠ t.resolved := by
  unfold changedData
  split_ifs <;> simp_all

theorem updated_at_not_mem_changedData (t : Todo) (f : TodoFormData) :
    Field.updated_at ∉ changedData t f := by
  unfold changedData
  split_ifs <;> simp_all

theorem mem_withUpdatedAt_self (l : List Field) :
    Field.updated_at ∈ withUpdatedAt l := by
  unfold withUpdatedAt
  split_ifs with h
  · exact h
  · simp

theorem mem_withUpdatedAt_iff (a : Field) (l : List Field)
    (ha : a ≠ Field.updated_at) : a ∈ withUpdatedAt l ↔ a ∈ l := by
  unfold withUpdatedAt
  split_ifs <;> simp [ha]

theorem find?_map_replace (l : List Todo) (pk : Nat) (t t' : Todo)
    (ht' : t'.id = pk)
    (h : l.find? (fun u => u.id == pk) = some t) :
    (l.map (fun u => if u.id = pk then t' else u)).find? (fun u => u.id == pk)
      = some t' := by
  induction l with
  | nil => simp at h
  | cons a l ih =>
    by_cases ha : a.id = pk
    · simp [List.map_cons, List.find?_cons_of_pos, ha, ht']
    · rw [List.find?_cons_of_neg _ (by simp [ha])] at h
      simp only [List.map_cons, if_neg ha]
      rw [List.find?_cons_of_neg _ (by simp [ha])]
      exact ih h

theorem find?_id_of_some (l : List Todo) (pk : Nat) (t : Todo)
    (h : l.find? (fun u => u.id == pk) = some t) : t.id = pk := by
  have := List.find?_some h
  simpa using this

/-- C3: on a valid edit of an existing record with a non-empty changed set,
the written record takes the submitted value exactly on the fields whose
submitted value differs from the stored one, keeps the stored value on every
other field, keeps created_at, and has updated_at refreshed to the clock. -/
theorem edit_writes_changed_fields (s : Store) (pk : Nat) (f : TodoFormData)
    (t : Todo) (hget : getTodo s pk = some t)
    (hch : changedData t f ≠ []) :
    ∃ t', getTodo (form_valid s pk f).1 pk = some t'
      ∧ t'.title = (if Field.title ∈ changedData t f then f.title else t.title)
      ∧ t'.description
          = (if Field.description ∈ changedData t f then f.description
             else t.description)
      ∧ t'.due_date
          = (if Field.due_date ∈ changedData t f then f.due_date else t.due_date)
      ∧ t'.resolved
          = (if Field.resolved ∈ changedData t f then f.resolved else t.resolved)
      ∧ t'.created_at = t.created_at
      ∧ t'.updated_at = s.clock := by
  have hid : t.id = pk := find?_id_of_some s.todos pk t hget
  refine ⟨saveUpdateFields s.clock t f (withUpdatedAt (changedData t f)),
    ?_, ?_, ?_, ?_, ?_, ?_, ?_⟩
  · show (form_valid s pk f).1.todos.find? (fun u => u.id == pk) = some _
    unfold form_valid
    rw [hget]
    simp only [if_neg hch]
    exact find?_map_replace s.todos pk t _ (by simp [saveUpdateFields, hid]) hget
  · simp [saveUpdateFields, mem_withUpdatedAt_iff]
  · simp [saveUpdateFields, mem_withUpdatedAt_iff]
  · simp [saveUpdateFields, mem_withUpdatedAt_iff]
  · simp [saveUpdateFields, mem_withUpdatedAt_iff]
  · simp [saveUpdateFields]
  · simp [saveUpdateFields, mem_withUpdatedAt_self]

theorem edit_writes_changed_fields_witness :
    (getTodo sampleStore 1 = some sampleTodo1)
    ∧ changedData sampleTodo1
        { title := "brand", description := "d", due_date := none,
          resolved := false } ≠ []
    ∧ ∃ t', getTodo (form_valid sampleStore 1
          { title := "brand", description := "d", due_date := none,
            resolved := false }).1 1 = some t'
        ∧ t'.title = (if Field.title ∈ changedData sampleTodo1
              { title := "brand", description := "d", due_date := none,
                resolved := false } then "brand" else sampleTodo1.title)
        ∧ t'.description = (if Field.description ∈ changedData sampleTodo1
              { title := "brand", description := "d", due_date := none,
                resolved := false } then "d" else sampleTodo1.description)
        ∧ t'.due_date = (if Field.due_date ∈ changedData sampleTodo1
              { title := "brand", description := "d", due_date := none,
                resolved := false } then none else sampleTodo1.due_date)
        ∧ t'.resolved = (if Field.resolved ∈ changedData sampleTodo1
              { title := "brand", description := "d", due_date := none,
                resolved := false } then false else sampleTodo1.resolved)
        ∧ t'.created_at = sampleTodo1.created_at
        ∧ t'.updated_at = sampleStore.clock :=
  ⟨by decide, by decide,
    edit_writes_changed_fields sampleStore 1
      { title := "brand", description := "d", due_date := none,
        resolved := false } sampleTodo1 (by decide) (by decide)⟩

/-- C10: when no submitted field differs from the stored values, the edit
handler performs no store write at all (the store, clock included, is
unchanged, so updated_at is not refreshed) and still redirects to the
list. -/
theorem edit_no_change_no_write (s : Store) (pk : Nat) (f : TodoFormData)
    (t : Todo) (hget : getTodo s pk = some t)
    (hch : changedData t f = []) :
    form_valid s pk f = (s, Response.redirect) := by
  unfold form_valid
  rw [hget]
  simp [hch]

theorem edit_no_change_no_write_witness :
    (getTodo sampleStore 1 = some sampleTodo1)
    ∧ changedData sampleTodo1
        { title := "a", description := "d", due_date := none,
          resolved := false } = []
    ∧ form_valid sampleStore 1
        { title := "a", description := "d", due_date := none,
          resolved := false } = (sampleStore, Response.redirect) :=
  ⟨by decide, by decide,
    edit_no_change_no_write sampleStore 1
      { title := "a", description := "d", due_date := none,
        resolved := false } sampleTodo1 (by decide) (by decide)⟩

/-- C9 (amended): create and a change-carrying edit refresh updated_at of
the written record to the current clock, but the toggle write leaves every
updated_at in the store exactly as it was. -/
theorem updated_at_refresh (s : Store) (r : RawForm) (f : TodoFormData)
    (pk i : Nat) :
    (∀ s2, createTodo s r = (s2, Response.redirect) →
        (s2.todos.head?).map Todo.updated_at = some s.clock)
    ∧ (∀ t, getTodo s pk = some t → changedData t f ≠ [] →
        (getTodo (form_valid s pk f).1 pk).map Todo.updated_at = some s.clock)
    ∧ ((toggle_resolved s pk).1.todos[i]?).map Todo.updated_at
        = (s.todos[i]?).map Todo.updated_at := by
  refine ⟨?_, ?_, ?_⟩
  · intro s2 h
    unfold createTodo at h
    cases hv : validate r with
    | error es => rw [hv] at h; simp at h
    | ok g =>
      rw [hv] at h
      injection h with h1 h2
      rw [← h1]
      simp
  · intro t hget hch
    have hid : t.id = pk := find?_id_of_some s.todos pk t hget
    have : getTodo (form_valid s pk f).1 pk
        = some (saveUpdateFields s.clock t f (withUpdatedAt (changedData t f))) := by
      show (form_valid s pk f).1.todos.find? (fun u => u.id == pk) = some _
      unfold form_valid
      rw [hget]
      simp only [if_neg hch]
      exact find?_map_replace s.todos pk t _ (by simp [saveUpdateFields, hid]) hget
    rw [this]
    simp [saveUpdateFields, mem_withUpdatedAt_self]
  · have hmap : (toggle_resolved s pk).1.todos[i]?
        = (s.todos[i]?).map (fun t =>
            if t.id = pk then { t with resolved := resolvedCase t.resolved } else t) := by
      simp [toggle_resolved]
    rw [hmap]
    cases h : s.todos[i]? with
    | none => simp
    | some t => by_cases ht : t.id = pk <;> simp [ht]

theorem updated_at_refresh_witness :
    (createTodo sampleStore
        { title := "New", description := "", due_date := "", resolved := false }
      = ((createTodo sampleStore
          { title := "New", description := "", due_date := "",
            resolved := false }).1, Response.redirect))
    ∧ (((createTodo sampleStore
          { title := "New", description := "", due_date := "",
            resolved := false }).1.todos.head?).map Todo.updated_at = some 7)
    ∧ (getTodo sampleStore 1 = some sampleTodo1)
    ∧ changedData sampleTodo1
        { title := "brand", description := "d", due_date := none,
          resolved := false } ≠ []
    ∧ ((getTodo (form_valid sampleStore 1
          { title := "brand", description := "d", due_date := none,
            resolved := false }).1 1).map Todo.updated_at = some 7)
    ∧ ((toggle_resolved sampleStore 1).1.todos[0]?).map Todo.updated_at
        = (sampleStore.todos[0]?).map Todo.updated_at :=
  ⟨by decide,
    (updated_at_refresh sampleStore
      { title := "New", description := "", due_date := "", resolved := false }
      { title := "brand", description := "d", due_date := none,
        resolved := false } 1 0).1 _ (by decide),
    by decide, by decide,
    (updated_at_refresh sampleStore
      { title := "New", description := "", due_date := "", resolved := false }
      { title := "brand", description := "d", due_date := none,
        resolved := false } 1 0).2.1 sampleTodo1 (by decide) (by decide),
    (updated_at_refresh sampleStore
      { title := "New", description := "", due_date := "", resolved := false }
      { title := "brand", description := "d", due_date := none,
        resolved := false } 1 0).2.2⟩

/-- C7: two edit requests that loaded the same record and changed disjoint
field sets, applied in sequence as their writes land, both remain
observable: each changed field holds the value its request submitted, and a
field neither request changed keeps its original value. -/
theorem concurrent_disjoint_edits (r0 : Todo) (f1 f2 : TodoFormData)
    (n1 n2 : Nat)
    (hdisj : ∀ a ∈ changedData r0 f1, a ∉ changedData r0 f2) :
    (Field.title ∈ changedData r0 f1 →
        (twoEdits r0 f1 f2 n1 n2).title = f1.title)
    ∧ (Field.description ∈ changedData r0 f1 →
        (twoEdits r0 f1 f2 n1 n2).description = f1.description)
    ∧ (Field.due_date ∈ changedData r0 f1 →
        (twoEdits r0 f1 f2 n1 n2).due_date = f1.due_date)
    ∧ (Field.resolved ∈ changedData r0 f1 →
        (twoEdits r0 f1 f2 n1 n2).resolved = f1.resolved)
    ∧ (Field.title ∈ changedData r0 f2 →
        (twoEdits r0 f1 f2 n1 n2).title = f2.title)
    ∧ (Field.description ∈ changedData r0 f2 →
        (twoEdits r0 f1 f2 n1 n2).description = f2.description)
    ∧ (Field.due_date ∈ changedData r0 f2 →
        (twoEdits r0 f1 f2 n1 n2).due_date = f2.due_date)
    ∧ (Field.resolved ∈ changedData r0 f2 →
        (twoEdits r0 f1 f2 n1 n2).resolved = f2.resolved)
    ∧ (Field.title ∉ changedData r0 f1 → Field.title ∉ changedData r0 f2 →
        (twoEdits r0 f1 f2 n1 n2).title = r0.title)
    ∧ (Field.description ∉ changedData r0 f1 →
        Field.description ∉ changedData r0 f2 →
        (twoEdits r0 f1 f2 n1 n2).description = r0.description)
    ∧ (Field.due_date ∉ changedData r0 f1 → Field.due_date ∉ changedData r0 f2 →
        (twoEdits r0 f1 f2 n1 n2).due_date = r0.due_date)
    ∧ (Field.resolved ∉ changedData r0 f1 → Field.resolved ∉ changedData r0 f2 →
        (twoEdits r0 f1 f2 n1 n2).resolved = r0.resolved) := by
  unfold twoEdits concurrentEditStep
  by_cases h1 : changedData r0 f1 = [] <;>
    by_cases h2 : changedData r0 f2 = [] <;>
      refine ⟨?_, ?_, ?_, ?_, ?_, ?_, ?_, ?_, ?_, ?_, ?_, ?_⟩ <;>
        intro hm <;>
          first
          | (intro hm2
             simp_all [saveUpdateFields, mem_withUpdatedAt_iff])
          | (have hn := hdisj _ hm
             simp_all [saveUpdateFields, mem_withUpdatedAt_iff])
          | simp_all [saveUpdateFields, mem_withUpdatedAt_iff]

theorem concurrent_disjoint_edits_witness :
    (∀ a ∈ changedData sampleTodo1
        { title := "brand", description := "d", due_date := none,
          resolved := false },
      a ∉ changedData sampleTodo1
        { title := "a", description := "newdesc", due_date := none,
          resolved := false })
    ∧ (twoEdits sampleTodo1
        { title := "brand", description := "d", due_date := none,
          resolved := false }
        { title := "a", description := "newdesc", due_date := none,
          resolved := false } 10 11).title = "brand"
    ∧ (twoEdits sampleTodo1
        { title := "brand", description := "d", due_date := none,
          resolved := false }
        { title := "a", description := "newdesc", due_date := none,
          resolved := false } 10 11).description = "newdesc"
    ∧ (twoEdits sampleTodo1
        { title := "brand", description := "d", due_date := none,
          resolved := false }
        { title := "a", description := "newdesc", due_date := none,
          resolved := false } 10 11).resolved = sampleTodo1.resolved :=
  ⟨by decide,
    (concurrent_disjoint_edits sampleTodo1
      { title := "brand", description := "d", due_date := none,
        resolved := false }
      { title := "a", description := "newdesc", due_date := none,
        resolved := false } 10 11 (by decide)).1 (by decide),
    (concurrent_disjoint_edits sampleTodo1
      { title := "brand", description := "d", due_date := none,
        resolved := false }
      { title := "a", description := "newdesc", due_date := none,
        resolved := false } 10 11 (by decide)).2.2.2.2.2.1 (by decide),
    (concurrent_disjoint_edits sampleTodo1
      { title := "brand", description := "d", due_date := none,
        resolved := false }
      { title := "a", description := "newdesc", due_date := none,
        resolved := false } 10 11 (by decide)).2.2.2.2.2.2.2.2.2.2.2
      (by decide) (by decide)⟩

/-- C4: a create whose title is empty after trimming writes nothing (the
store is unchanged, so the record count is unchanged) and the response
re-renders the form carrying the required-field error, not a redirect. -/
theorem create_empty_title_rejected (s : Store) (r : RawForm)
    (h : strip r.title = "") :
    (createTodo s r).1 = s
    ∧ (∃ es, (createTodo s r).2 = Response.rerender es
        ∧ FieldError.titleRequired ∈ es)
    ∧ (createTodo s r).2 ≠ Response.redirect := by
  unfold createTodo validate
  by_cases hd : r.due_date = ""
  · simp [hd, h]
  · cases hp : parseDate r.due_date with
    | some d => simp [hd, hp, h]
    | none => simp [hd, hp, h]

theorem create_empty_title_rejected_witness :
    (strip "   " = "")
    ∧ (createTodo sampleStore
        { title := "   ", description := "x", due_date := "",
          resolved := false }).1 = sampleStore
    ∧ (∃ es, (createTodo sampleStore
          { title := "   ", description := "x", due_date := "",
            resolved := false }).2 = Response.rerender es
        ∧ FieldError.titleRequired ∈ es)
    ∧ (createTodo sampleStore
        { title := "   ", description := "x", due_date := "",
          resolved := false }).2 ≠ Response.redirect :=
  ⟨by decide,
    create_empty_title_rejected sampleStore
      { title := "   ", description := "x", due_date := "", resolved := false }
      (by decide)⟩

/-- C5: a create whose due_date is non-empty and fails to parse as a
calendar date writes nothing and the response carries the invalid-date
error; an empty due_date is not an error: with a valid title the record is
created with no due date and the handler redirects. -/
theorem create_bad_date_checked (s : Store) (r : RawForm) :
    (r.due_date ≠ "" → parseDate r.due_date = none →
        (createTodo s r).1 = s
        ∧ ∃ es, (createTodo s r).2 = Response.rerender es
            ∧ FieldError.invalidDate ∈ es)
    ∧ (r.due_date = "" → strip r.title ≠ "" →
        ∃ t, (createTodo s r).1.todos = t :: s.todos ∧ t.due_date = none
          ∧ (createTodo s r).2 = Response.redirect) := by
  constructor
  · intro hd hp
    unfold createTodo validate
    by_cases ht : strip r.title = "" <;> simp [hd, hp, ht]
  · intro hd ht
    unfold createTodo validate
    simp [hd, ht]

theorem create_bad_date_checked_witness :
    (("not-a-date" : String) ≠ "")
    ∧ parseDate "not-a-date" = none
    ∧ ((createTodo sampleStore
        { title := "Bad date", description := "", due_date := "not-a-date",
          resolved := false }).1 = sampleStore
      ∧ ∃ es, (createTodo sampleStore
            { title := "Bad date", description := "", due_date := "not-a-date",
              resolved := false }).2 = Response.rerender es
          ∧ FieldError.invalidDate ∈ es)
    ∧ (∃ t, (createTodo sampleStore
          { title := "ok", description := "", due_date := "",
            resolved := false }).1.todos = t :: sampleStore.todos
        ∧ t.due_date = none
        ∧ (createTodo sampleStore
            { title := "ok", description := "", due_date := "",
              resolved := false }).2 = Response.redirect) :=
  ⟨by decide, by decide,
    (create_bad_date_checked sampleStore
      { title := "Bad date", description := "", due_date := "not-a-date",
        resolved := false }).1 (by decide) (by decide),
    (create_bad_date_checked sampleStore
      { title := "ok", description := "", due_date := "",
        resolved := false }).2 (by decide) (by decide)⟩

theorem createTodo_redirect (s : Store) (r : RawForm)
    (h : (createTodo s r).2 = Response.redirect) :
    ∃ f, validate r = Except.ok f ∧
      (createTodo s r).1
        = { todos :=
              { id := s.nextId, title := f.title, description := f.description,
                due_date := f.due_date, resolved := f.resolved,
                created_at := s.clock, updated_at := s.clock } :: s.todos,
            nextId := s.nextId + 1, clock := s.clock + 1 } := by
  unfold createTodo at h ⊢
  cases hv : validate r with
  | error es =>
    rw [hv] at h
    simp at h
  | ok f => exact ⟨f, rfl, rfl⟩

theorem validate_ok_resolved (r : RawForm) (f : TodoFormData)
    (h : validate r = Except.ok f) : f.resolved = r.resolved := by
  unfold validate at h
  by_cases hd : r.due_date = ""
  · rw [if_pos hd] at h
    by_cases ht : strip r.title = ""
    · simp [ht] at h
    · simp [ht] at h
      rw [← h]
  · rw [if_neg hd] at h
    cases hp : parseDate r.due_date with
    | none => rw [hp] at h; simp at h
    | some d =>
      rw [hp] at h
      by_cases ht : strip r.title = ""
      · simp [ht] at h
      · simp [ht] at h
        rw [← h]

theorem orderedInsert_cons_of_forall (a : Todo) (l : List Todo)
    (h : ∀ b ∈ l, createdDesc a b) :
    List.orderedInsert createdDesc a l = a :: l := by
  cases l with
  | nil => rfl
  | cons b l =>
    unfold List.orderedInsert
    rw [if_pos (h b (by simp))]

theorem mem_sort_todos (l : List Todo) (b : Todo)
    (hb : b ∈ List.insertionSort createdDesc l) : b ∈ l :=
  (List.perm_insertionSort createdDesc l).mem_iff.mp hb

/-- C6: on a well-formed store, a valid create yields a record whose
resolved flag is exactly the submitted one (false unless explicitly set
true) that appears first in the listing, and after two valid creates in
sequence the listing places the newer record first and the older one
second. -/
theorem create_defaults_and_ordering (s : Store) (r1 r2 : RawForm)
    (hwf : Store.WF s)
    (h1 : (createTodo s r1).2 = Response.redirect)
    (h2 : (createTodo (createTodo s r1).1 r2).2 = Response.redirect) :
    ((createTodo s r1).1.todos.head?).map Todo.resolved = some r1.resolved
    ∧ (listTodos (createTodo s r1).1).head? = (createTodo s r1).1.todos.head?
    ∧ (listTodos (createTodo (createTodo s r1).1 r2).1)[0]?
        = (createTodo (createTodo s r1).1 r2).1.todos.head?
    ∧ (listTodos (createTodo (createTodo s r1).1 r2).1)[1]?
        = (createTodo s r1).1.todos.head? := by
  obtain ⟨f1, hv1, hs1⟩ := createTodo_redirect s r1 h1
  obtain ⟨f2, hv2, hs2⟩ := createTodo_redirect ((createTodo s r1).1) r2 h2
  have hforall : ∀ b ∈ List.insertionSort createdDesc s.todos,
      b.created_at ≤ s.clock :=
    fun b hb => Nat.le_of_lt (hwf b (mem_sort_todos s.todos b hb))
  have hsort1 : listTodos (createTodo s r1).1
      = { id := s.nextId, title := f1.title, description := f1.description,
          due_date := f1.due_date, resolved := f1.resolved,
          created_at := s.clock, updated_at := s.clock }
        :: List.insertionSort createdDesc s.todos := by
    rw [hs1]
    exact orderedInsert_cons_of_forall _ _ (fun b hb => hforall b hb)
  have inner : List.insertionSort createdDesc
      ({ id := s.nextId, title := f1.title, description := f1.description,
         due_date := f1.due_date, resolved := f1.resolved,
         created_at := s.clock, updated_at := s.clock } :: s.todos)
      = { id := s.nextId, title := f1.title, description := f1.description,
          due_date := f1.due_date, resolved := f1.resolved,
          created_at := s.clock, updated_at := s.clock }
        :: List.insertionSort createdDesc s.todos :=
    orderedInsert_cons_of_forall _ _ (fun b hb => hforall b hb)
  have hsort2 : listTodos (createTodo (createTodo s r1).1 r2).1
      = { id := s.nextId + 1, title := f2.title, description := f2.description,
          due_date := f2.due_date, resolved := f2.resolved,
          created_at := s.clock + 1, updated_at := s.clock + 1 }
        :: { id := s.nextId, title := f1.title, description := f1.description,
             due_date := f1.due_date, resolved := f1.resolved,
             created_at := s.clock, updated_at := s.clock }
        :: List.insertionSort createdDesc s.todos := by
    rw [hs2, hs1]
    show List.insertionSort createdDesc
        ({ id := s.nextId + 1, title := f2.title, description := f2.description,
           due_date := f2.due_date, resolved := f2.resolved,
           created_at := s.clock + 1, updated_at := s.clock + 1 }
          :: { id := s.nextId, title := f1.title, description := f1.description,
               due_date := f1.due_date, resolved := f1.resolved,
               created_at := s.clock, updated_at := s.clock }
          :: s.todos) = _
    calc List.insertionSort createdDesc
          ({ id := s.nextId + 1, title := f2.title, description := f2.description,
             due_date := f2.due_date, resolved := f2.resolved,
             created_at := s.clock + 1, updated_at := s.clock + 1 }
            :: { id := s.nextId, title := f1.title,
                 description := f1.description, due_date := f1.due_date,
                 resolved := f1.resolved, created_at := s.clock,
                 updated_at := s.clock }
            :: s.todos)
        = List.orderedInsert createdDesc
            { id := s.nextId + 1, title := f2.title,
              description := f2.description, due_date := f2.due_date,
              resolved := f2.resolved, created_at := s.clock + 1,
              updated_at := s.clock + 1 }
            (List.insertionSort createdDesc
              ({ id := s.nextId, title := f1.title,
                 description := f1.description, due_date := f1.due_date,
                 resolved := f1.resolved, created_at := s.clock,
                 updated_at := s.clock } :: s.todos)) := rfl
      _ = List.orderedInsert createdDesc
            { id := s.nextId + 1, title := f2.title,
              description := f2.description, due_date := f2.due_date,
              resolved := f2.resolved, created_at := s.clock + 1,
              updated_at := s.clock + 1 }
            ({ id := s.nextId, title := f1.title,
               description := f1.description, due_date := f1.due_date,
               resolved := f1.resolved, created_at := s.clock,
               updated_at := s.clock }
              :: List.insertionSort createdDesc s.todos) := by rw [inner]
      _ = _ := by
            refine orderedInsert_cons_of_forall _ _ ?_
            intro b hb
            rcases List.mem_cons.mp hb with hb1 | hb2
            · rw [hb1]
              exact Nat.le_succ s.clock
            · exact Nat.le_succ_of_le (hforall b hb2)
  refine ⟨?_, ?_, ?_, ?_⟩
  · rw [hs1]
    simp [validate_ok_resolved r1 f1 hv1]
  · rw [hsort1, hs1]
    rfl
  · rw [hsort2, hs2, hs1]
    simp
  · rw [hsort2, hs1]
    simp

theorem create_defaults_and_ordering_witness :
    Store.WF sampleStore
    ∧ ((createTodo sampleStore
        { title := "first", description := "", due_date := "",
          resolved := false }).2 = Response.redirect)
    ∧ ((createTodo (createTodo sampleStore
          { title := "first", description := "", due_date := "",
            resolved := false }).1
        { title := "second", description := "", due_date := "",
          resolved := false }).2 = Response.redirect)
    ∧ (((createTodo sampleStore
          { title := "first", description := "", due_date := "",
            resolved := false }).1.todos.head?).map Todo.resolved = some false
      ∧ (listTodos (createTodo sampleStore
            { title := "first", description := "", due_date := "",
              resolved := false }).1).head?
          = (createTodo sampleStore
              { title := "first", description := "", due_date := "",
                resolved := false }).1.todos.head?
      ∧ (listTodos (createTodo (createTodo sampleStore
              { title := "first", description := "", due_date := "",
                resolved := false }).1
            { title := "second", description := "", due_date := "",
              resolved := false }).1)[0]?
          = (createTodo (createTodo sampleStore
                { title := "first", description := "", due_date := "",
                  resolved := false }).1
              { title := "second", description := "", due_date := "",
                resolved := false }).1.todos.head?
      ∧ (listTodos (createTodo (createTodo sampleStore
              { title := "first", description := "", due_date := "",
                resolved := false }).1
            { title := "second", description := "", due_date := "",
              resolved := false }).1)[1]?
          = (createTodo sampleStore
              { title := "first", description := "", due_date := "",
                resolved := false }).1.todos.head?) :=
  ⟨by unfold Store.WF; decide, by decide, by decide,
    create_defaults_and_ordering sampleStore
      { title := "first", description := "", due_date := "", resolved := false }
      { title := "second", description := "", due_date := "", resolved := false }
      (by unfold Store.WF; decide) (by decide) (by decide)⟩

end Todos
